import Mathlib

/-!
Shallow embedding of `src/spotify.py` (a WeeChat plugin announcing the
currently playing Spotify track) and proofs about its specification.

Conventions of the embedding:
* JSON values are the inductive `Json`; Python `None` arguments are `Option`.
* A Python exception that escapes a function is `Except.error`; a normal
  return is `Except.ok`.
* `time.time()` is passed in explicitly as an integer `now`; machine floats
  do not occur (all timestamps and durations are integers).
* The outcome of an HTTP request made by `requests` is a `NetOutcome`:
  either a raised network-level exception, or a status code together with
  the JSON parse of the body (`none` when `response.json()` would raise).
-/

/-- JSON values as produced by Python `json.load` / `response.json()`.
Objects are insertion-ordered key/value lists, mirroring Python dicts.
Floating-point literals do not occur in the modelled data and are outside
the model. -/
inductive Json where
  | null
  | bool (b : Bool)
  | int (n : Int)
  | str (s : String)
  | arr (xs : List Json)
  | obj (kvs : List (String × Json))

/-- Python truthiness (`bool(x)`) of a JSON value. -/
def Json.truthy : Json → Bool
  | .null => false
  | .bool b => b
  | .int n => n != 0
  | .str s => s != ""
  | .arr xs => !xs.isEmpty
  | .obj kvs => !kvs.isEmpty

/-- Lookup of a key in a dict's key/value list (first occurrence; a dict
built by Python has each key at most once). -/
def Json.lookupKey : List (String × Json) → String → Option Json
  | [], _ => none
  | (k, v) :: rest, key => if k == key then some v else Json.lookupKey rest key

/-- Python `key in d` for a dict `d`. -/
def Json.hasKey (kvs : List (String × Json)) (key : String) : Bool :=
  (Json.lookupKey kvs key).isSome

/-- Python dict assignment `d[key] = v`: replaces the value at an existing
key in place (keeping its position), otherwise appends the new key. -/
def Json.setKey : List (String × Json) → String → Json → List (String × Json)
  | [], key, v => [(key, v)]
  | (k, w) :: rest, key, v =>
      if k == key then (k, v) :: rest else (k, w) :: Json.setKey rest key v

/-- Python `d.get(key, default)`: total on dicts, raises `AttributeError`
on any non-dict receiver. -/
def Json.pyGet (j : Json) (key : String) (default : Json) : Except String Json :=
  match j with
  | .obj kvs => .ok ((Json.lookupKey kvs key).getD default)
  | _ => .error ("AttributeError")

/-- Python subscript `d[key]`: `KeyError` when the key is missing,
`TypeError` when the receiver is not a dict. -/
def Json.pySub (j : Json) (key : String) : Except String Json :=
  match j with
  | .obj kvs =>
      match Json.lookupKey kvs key with
      | some v => .ok v
      | none => .error ("KeyError")
  | _ => .error ("TypeError")

/-- Python `key in d` on an arbitrary JSON value, used only where the
receiver is known to be a dict. -/
def Json.pyHasKey : Json → String → Bool
  | .obj kvs, key => Json.hasKey kvs key
  | _, _ => false

/-- Python iteration `for x in j`: lists yield their elements, strings
their one-character substrings, dicts their keys; other values raise
`TypeError`. -/
def Json.pyIter : Json → Except String (List Json)
  | .arr xs => .ok xs
  | .str s => .ok (s.data.map fun c => Json.str (String.singleton c))
  | .obj kvs => .ok (kvs.map fun kv => Json.str kv.1)
  | _ => .error ("TypeError")

/-- Python integer coercion as performed by arithmetic on a JSON value:
ints are themselves, bools are 0 or 1, everything else raises `TypeError`.
(Floats do not occur in the model.) -/
def Json.pyInt : Json → Except String Int
  | .int n => .ok n
  | .bool b => .ok (if b then 1 else 0)
  | _ => .error ("TypeError")

mutual

/-- Python `str()` of a JSON value as interpolated by an f-string. -/
def Json.pyStr : Json → String
  | .null => "None"
  | .bool b => if b then "True" else "False"
  | .int n => toString n
  | .str s => s
  | .arr xs => "[" ++ Json.pyReprList xs ++ "]"
  | .obj kvs => "\x7b" ++ Json.pyReprObj kvs ++ "\x7d"

/-- Python `repr()` of a JSON value (as used by `str()` of containers). -/
def Json.pyRepr : Json → String
  | .null => "None"
  | .bool b => if b then "True" else "False"
  | .int n => toString n
  | .str s => "'" ++ s ++ "'"
  | .arr xs => "[" ++ Json.pyReprList xs ++ "]"
  | .obj kvs => "\x7b" ++ Json.pyReprObj kvs ++ "\x7d"

/-- Comma-separated reprs of the elements of a Python list. -/
def Json.pyReprList : List Json → String
  | [] => ""
  | [x] => Json.pyRepr x
  | x :: y :: rest => Json.pyRepr x ++ ", " ++ Json.pyReprList (y :: rest)

/-- Comma-separated `'key': repr` entries of a Python dict. -/
def Json.pyReprObj : List (String × Json) → String
  | [] => ""
  | [kv] => "'" ++ kv.1 ++ "': " ++ Json.pyRepr kv.2
  | kv :: kv2 :: rest =>
      "'" ++ kv.1 ++ "': " ++ Json.pyRepr kv.2 ++ ", " ++ Json.pyReprObj (kv2 :: rest)

end

/-- Evaluation of the list comprehension
`[artist["name"] for artist in item.get("artists", [])]`: the first
subscript failure raises out of the comprehension. -/
def pyMapSubName : List Json → Except String (List Json)
  | [] => .ok []
  | a :: rest =>
      Except.bind (a.pySub ("name")) fun n =>
      Except.bind (pyMapSubName rest) fun ns => .ok (n :: ns)

/-- Python `", ".join(xs)`: `TypeError` unless every element is a str. -/
def asPyStrList : List Json → Except String (List String)
  | [] => .ok []
  | .str s :: rest =>
      Except.bind (asPyStrList rest) fun r => .ok (s :: r)
  | _ :: _ => .error ("TypeError")

/-- Python format spec `{n:02d}`: the decimal rendering zero-padded to a
minimum width of two. -/
def pad2 (n : Int) : String :=
  let s := toString n
  if s.length < 2 then "0" ++ s else s

/-- The nested helper `ms_to_minutes_seconds` of `format_track_info`:
`total_seconds = ms // 1000`, `minutes = total_seconds // 60`,
`seconds = total_seconds % 60`, rendered as `f"{int(minutes)}:{int(seconds):02d}"`.
Python `//` and `%` are floor division and floor modulus, i.e. `Int.fdiv`
and `Int.fmod`. -/
def ms_to_minutes_seconds (ms : Int) : String :=
  let total_seconds := Int.fdiv ms 1000
  let minutes := Int.fdiv total_seconds 60
  let seconds := Int.fmod total_seconds 60
  toString minutes ++ ":" ++ pad2 seconds

/-- The function `format_track_info(track_data)` of `src/spotify.py`.
`none` models the Python argument `None`; `.ok none` models returning
`None`; `.error` models an uncaught Python exception.  The music-note
prefix of the output line is the literal four characters present in the
source file. -/
def format_track_info (track_data : Option Json) : Except String (Option String) :=
  match track_data with
  | none => .ok none
  | some td =>
    if !td.truthy then .ok none
    else
      Except.bind (td.pyGet ("is_playing") (Json.bool true)) fun isp =>
      if !isp.truthy then .ok none
      else
        Except.bind (td.pyGet ("item") (Json.obj [])) fun item =>
        Except.bind (item.pyGet ("artists") (Json.arr [])) fun artistsJ =>
        Except.bind (Json.pyIter artistsJ) fun artistsL =>
        Except.bind (pyMapSubName artistsL) fun names =>
        Except.bind (asPyStrList names) fun nameStrs =>
        let artists := String.intercalate (", ") nameStrs
        Except.bind (item.pyGet ("name") (Json.str ("Unknown Track"))) fun track_name =>
        Except.bind (item.pyGet ("album") (Json.obj [])) fun albumJ =>
        Except.bind (albumJ.pyGet ("name") (Json.str ("Unknown Album"))) fun album_name =>
        Except.bind (item.pyGet ("external_urls") (Json.obj [])) fun external =>
        Except.bind (external.pyGet ("spotify") (Json.str (""))) fun urlJ =>
        let url_text := if urlJ.truthy then "Listen: " ++ Json.pyStr urlJ else ""
        Except.bind (item.pyGet ("duration_ms") (Json.int 0)) fun duration_ms =>
        Except.bind (td.pyGet ("progress_ms") (Json.int 0)) fun progress_ms =>
        Except.bind (Json.pyInt progress_ms) fun pms =>
        Except.bind (Json.pyInt duration_ms) fun dms =>
        let current_position := ms_to_minutes_seconds pms
        let total_duration := ms_to_minutes_seconds dms
        .ok (some ("ðŸŽµ Now playing: " ++ artists ++ " - " ++ Json.pyStr track_name ++
          " | (from " ++ Json.pyStr album_name ++ ") | Progress: " ++
          current_position ++ "/" ++ total_duration ++ " | " ++ url_text))

/-- Outcome of one HTTP request made via `requests`: `exn` models a
network-level exception raised by the request call itself; otherwise the
response's status code together with the JSON parse of its body (`none`
when the body is not valid JSON, so that `response.json()` raises). -/
inductive NetOutcome where
  | exn
  | resp (status : Nat) (body : Option Json)

/-- Mutable token state of `SpotifyClient`: `access_token` (initially
`None`), `expires_at` (initially 0), and the stored `refresh_token`. -/
structure ClientState where
  access_token : Option Json
  expires_at : Int
  refresh_token : Json

/-- Result of `refresh_access_token` / `exchange_code_for_token`: the
return value (or uncaught exception), the token state after the call, the
number of `start_authentication()` invocations, and the tokens passed to
`save_refresh_token`. -/
structure CallResult where
  ret : Except String Bool
  st : ClientState
  authCalls : Nat
  saved : List Json

/-- The method `SpotifyClient.refresh_access_token` of `src/spotify.py`.
`now` is the value of `time.time()` during the call and `net` the outcome
of the POST to the token endpoint. -/
def refresh_access_token (st : ClientState) (now : Int) (net : NetOutcome) : CallResult :=
  match net with
  | .exn => ⟨.error ("RequestException"), st, 0, []⟩
  | .resp status body =>
    if status == 200 then
      match body with
      | none => ⟨.error ("JSONDecodeError"), st, 0, []⟩
      | some data =>
        match data.pySub ("access_token") with
        | .error e => ⟨.error e, st, 0, []⟩
        | .ok tok =>
          let st1 : ClientState := { st with access_token := some tok }
          match data.pySub ("expires_in") with
          | .error e => ⟨.error e, st1, 0, []⟩
          | .ok ei =>
            match ei.pyInt with
            | .error e => ⟨.error e, st1, 0, []⟩
            | .ok n =>
              let st2 : ClientState := { st1 with expires_at := now + n }
              if data.pyHasKey ("refresh_token") then
                match data.pySub ("refresh_token") with
                | .error e => ⟨.error e, st2, 0, []⟩
                | .ok rt => ⟨.ok true, { st2 with refresh_token := rt }, 0, [rt]⟩
              else ⟨.ok true, st2, 0, []⟩
    else
      match body with
      | none => ⟨.error ("JSONDecodeError"), st, 0, []⟩
      | some data =>
        match data.pyGet ("error") Json.null with
        | .error e => ⟨.error e, st, 0, []⟩
        | .ok errv =>
          if (match errv with | .str s => s == "invalid_grant" | _ => false) then
            ⟨.ok false, st, 1, []⟩
          else ⟨.ok false, st, 0, []⟩

/-- The method `SpotifyClient.exchange_code_for_token` of `src/spotify.py`
(the `code` argument only feeds the request payload). -/
def exchange_code_for_token (st : ClientState) (_code : String) (now : Int)
    (net : NetOutcome) : CallResult :=
  match net with
  | .exn => ⟨.error ("RequestException"), st, 0, []⟩
  | .resp status body =>
    if status == 200 then
      match body with
      | none => ⟨.error ("JSONDecodeError"), st, 0, []⟩
      | some data =>
        match data.pySub ("access_token") with
        | .error e => ⟨.error e, st, 0, []⟩
        | .ok tok =>
          let st1 : ClientState := { st with access_token := some tok }
          match data.pySub ("refresh_token") with
          | .error e => ⟨.error e, st1, 0, []⟩
          | .ok rt =>
            let st2 : ClientState := { st1 with refresh_token := rt }
            match data.pySub ("expires_in") with
            | .error e => ⟨.error e, st2, 0, []⟩
            | .ok ei =>
              match ei.pyInt with
              | .error e => ⟨.error e, st2, 0, []⟩
              | .ok n => ⟨.ok true, { st2 with expires_at := now + n }, 0, [rt]⟩
    else ⟨.ok false, st, 0, []⟩

/-- Result of `get_current_track`: the returned payload (`.ok none` models
returning `None`, `.error` an uncaught exception), the state after the
call, and how many times `refresh_access_token` and
`start_authentication` ran during it. -/
structure TrackCallResult where
  ret : Except String (Option Json)
  st : ClientState
  refreshCalls : Nat
  authCalls : Nat

/-- The `try`-block of `get_current_track`: the authenticated GET to the
currently-playing endpoint.  Every exception inside the block (network
error or JSON decode error) is caught and turned into `None`. -/
def fetchCurrentlyPlaying (st : ClientState) (refreshCalls authCalls : Nat)
    (net : NetOutcome) : TrackCallResult :=
  match net with
  | .exn => ⟨.ok none, st, refreshCalls, authCalls⟩
  | .resp status body =>
    if status == 200 then
      match body with
      | some j => ⟨.ok (some j), st, refreshCalls, authCalls⟩
      | none => ⟨.ok none, st, refreshCalls, authCalls⟩
    else if status == 204 then
      ⟨.ok (some (Json.obj [(("is_playing"), Json.bool false)])), st, refreshCalls, authCalls⟩
    else ⟨.ok none, st, refreshCalls, authCalls⟩

/-- The method `SpotifyClient.get_current_track` of `src/spotify.py`.
`refreshNet` is the outcome of the token-refresh POST (used only when the
refresh path is taken) and `fetchNet` the outcome of the GET to the
currently-playing endpoint.  The refresh call happens outside the
`try`-block, so an exception it raises propagates out. -/
def get_current_track (st : ClientState) (now : Int)
    (refreshNet fetchNet : NetOutcome) : TrackCallResult :=
  let tokenFalsy : Bool :=
    match st.access_token with
    | none => true
    | some j => !j.truthy
  if tokenFalsy || decide (now > st.expires_at - 60) then
    let r := refresh_access_token st now refreshNet
    match r.ret with
    | .error e => ⟨.error e, r.st, 1, r.authCalls⟩
    | .ok false => ⟨.ok none, r.st, 1, r.authCalls⟩
    | .ok true => fetchCurrentlyPlaying r.st 1 r.authCalls fetchNet
  else fetchCurrentlyPlaying st 0 0 fetchNet

/-- Characters counted as whitespace between JSON tokens. -/
def jsonWs (c : Char) : Bool := c == ' ' || c == '\t' || c == '\n' || c == '\r'

/-- Drop leading JSON whitespace. -/
def skipWs : List Char → List Char
  | [] => []
  | c :: rest => if jsonWs c then skipWs rest else c :: rest

/-- Value of a hexadecimal digit, if any. -/
def hexVal (c : Char) : Option Nat :=
  if '0' ≤ c ∧ c ≤ '9' then some (c.toNat - ('0').toNat)
  else if 'a' ≤ c ∧ c ≤ 'f' then some (c.toNat - ('a').toNat + 10)
  else if 'A' ≤ c ∧ c ≤ 'F' then some (c.toNat - ('A').toNat + 10)
  else none

/-- Parse the body of a JSON string after its opening quote, with the
standard escapes; returns the string and the rest of the input after the
closing quote.  Raw control characters are rejected (Python json is
strict) and a `\u` escape must denote a Unicode scalar value. -/
def parseStringBody : Nat → List Char → Option (String × List Char)
  | 0, _ => none
  | _, [] => none
  | fuel+1, c :: rest =>
    if c == '"' then some ("", rest)
    else if c == '\\' then
      match rest with
      | [] => none
      | e :: rest2 =>
        let step : Option (Char × List Char) :=
          if e == '"' then some ('"', rest2)
          else if e == '\\' then some ('\\', rest2)
          else if e == '/' then some ('/', rest2)
          else if e == 'b' then some ('\x08', rest2)
          else if e == 'f' then some ('\x0c', rest2)
          else if e == 'n' then some ('\n', rest2)
          else if e == 'r' then some ('\r', rest2)
          else if e == 't' then some ('\t', rest2)
          else if e == 'u' then
            match rest2 with
            | h1 :: h2 :: h3 :: h4 :: rest3 =>
              match hexVal h1, hexVal h2, hexVal h3, hexVal h4 with
              | some a, some b, some c2, some d =>
                let n := ((a * 16 + b) * 16 + c2) * 16 + d
                if n < 0xd800 ∨ (0xdfff < n ∧ n < 0x110000) then
                  some (Char.ofNat n, rest3)
                else none
              | _, _, _, _ => none
            | _ => none
          else none
        match step with
        | none => none
        | some (ch, rest3) =>
          match parseStringBody fuel rest3 with
          | none => none
          | some (s, r) => some (String.singleton ch ++ s, r)
    else if c.toNat < 0x20 then none
    else
      match parseStringBody fuel rest with
      | none => none
      | some (s, r) => some (String.singleton c ++ s, r)

/-- Parse a JSON integer literal (no leading zeros).  Floating-point
forms (a fraction or exponent part) are outside the modelled fragment and
fail the parse. -/
def parseNum (input : List Char) : Option (Json × List Char) :=
  match input with
  | '-' :: input1 => parseNumCore true input1
  | _ => parseNumCore false input
where
  parseNumCore (neg : Bool) (input1 : List Char) : Option (Json × List Char) :=
    match input1.span (fun c => c.isDigit) with
    | (ds, rest) =>
      if ds.isEmpty then none
      else if ds.length > 1 && ds.headD ('0') == '0' then none
      else
        match rest with
        | '.' :: _ => none
        | 'e' :: _ => none
        | 'E' :: _ => none
        | _ =>
          let n : Nat := ds.foldl (fun acc c => acc * 10 + (c.toNat - ('0').toNat)) 0
          some (Json.int (if neg then -(n : Int) else (n : Int)), rest)

mutual

/-- Parse one JSON value, returning it and the rest of the input.  The
fuel argument only bounds the recursion depth; one unit is consumed per
nested parse, so an initial fuel of input length + 1 never runs out. -/
def parseVal : Nat → List Char → Option (Json × List Char)
  | 0, _ => none
  | fuel+1, input =>
    match skipWs input with
    | [] => none
    | '"' :: rest =>
      match parseStringBody (rest.length + 1) rest with
      | none => none
      | some (s, r) => some (Json.str s, r)
    | '{' :: rest =>
      match skipWs rest with
      | '}' :: r2 => some (Json.obj [], r2)
      | r2 =>
        match parseMembers fuel r2 [] with
        | none => none
        | some (kvs, r3) => some (Json.obj kvs, r3)
    | '[' :: rest =>
      match skipWs rest with
      | ']' :: r2 => some (Json.arr [], r2)
      | r2 =>
        match parseElems fuel r2 [] with
        | none => none
        | some (xs, r3) => some (Json.arr xs, r3)
    | 't' :: 'r' :: 'u' :: 'e' :: rest => some (Json.bool true, rest)
    | 'f' :: 'a' :: 'l' :: 's' :: 'e' :: rest => some (Json.bool false, rest)
    | 'n' :: 'u' :: 'l' :: 'l' :: rest => some (Json.null, rest)
    | other => parseNum other

/-- Parse the members of a JSON object after its opening brace (the
object being known non-empty), accumulating into a dict with Python's
last-value-wins semantics for duplicate keys. -/
def parseMembers : Nat → List Char → List (String × Json) →
    Option (List (String × Json) × List Char)
  | 0, _, _ => none
  | fuel+1, input, acc =>
    match skipWs input with
    | '"' :: rest =>
      match parseStringBody (rest.length + 1) rest with
      | none => none
      | some (key, r2) =>
        match skipWs r2 with
        | ':' :: r3 =>
          match parseVal fuel r3 with
          | none => none
          | some (v, r4) =>
            let acc2 := Json.setKey acc key v
            match skipWs r4 with
            | ',' :: r5 => parseMembers fuel r5 acc2
            | '}' :: r5 => some (acc2, r5)
            | _ => none
        | _ => none
    | _ => none

/-- Parse the elements of a JSON array after its opening bracket (the
array being known non-empty). -/
def parseElems : Nat → List Char → List Json → Option (List Json × List Char)
  | 0, _, _ => none
  | fuel+1, input, acc =>
    match parseVal fuel input with
    | none => none
    | some (v, r) =>
      match skipWs r with
      | ',' :: r2 => parseElems fuel r2 (acc ++ [v])
      | ']' :: r2 => some (acc ++ [v], r2)
      | _ => none

end

/-- Model of Python `json.load` on the JSON fragment used by the
credentials file: objects, arrays, strings, integers, booleans, null.
`none` models a raised `JSONDecodeError` (which, beyond invalid input,
also covers the floating-point literals outside the fragment). -/
def json_loads (s : String) : Option Json :=
  match parseVal (s.length + 1) s.data with
  | some (v, rest) => if (skipWs rest).isEmpty then some v else none
  | none => none

/-- Lowercase hexadecimal digit. -/
def hexDigit (n : Nat) : Char :=
  if n < 10 then Char.ofNat (('0').toNat + n) else Char.ofNat (('a').toNat + n - 10)

/-- Four lowercase hexadecimal digits, as in a `\uXXXX` escape. -/
def toHex4 (n : Nat) : String :=
  String.mk [hexDigit (n / 4096 % 16), hexDigit (n / 256 % 16),
             hexDigit (n / 16 % 16), hexDigit (n % 16)]

/-- Escaping of one character inside a JSON string as written by Python
`json.dump` with its defaults (`ensure_ascii=True`): characters outside
the printable ASCII range come out as `\uXXXX` escapes (a surrogate pair
beyond the basic multilingual plane). -/
def escapeChar (c : Char) : String :=
  if c == '"' then "\\\""
  else if c == '\\' then "\\\\"
  else if c == '\n' then "\\n"
  else if c == '\t' then "\\t"
  else if c == '\r' then "\\r"
  else if c == '\x08' then "\\b"
  else if c == '\x0c' then "\\f"
  else if c.toNat < 0x20 then "\\u" ++ toHex4 c.toNat
  else if c.toNat < 0x7f then String.singleton c
  else if c.toNat < 0x10000 then "\\u" ++ toHex4 c.toNat
  else
    let v := c.toNat - 0x10000
    "\\u" ++ toHex4 (0xd800 + v / 0x400) ++ "\\u" ++ toHex4 (0xdc00 + v % 0x400)

mutual

/-- Model of Python `json.dump` with its default settings: item separator
a comma-space, key separator a colon-space, no indentation, ASCII-only
output. -/
def json_dumps_val : Json → String
  | .null => "null"
  | .bool b => if b then "true" else "false"
  | .int n => toString n
  | .str s => "\"" ++ String.join (s.data.map escapeChar) ++ "\""
  | .arr xs => "[" ++ json_dumps_list xs ++ "]"
  | .obj kvs => "\x7b" ++ json_dumps_members kvs ++ "\x7d"

/-- Serialized elements of a JSON array, comma-space separated. -/
def json_dumps_list : List Json → String
  | [] => ""
  | [x] => json_dumps_val x
  | x :: y :: rest => json_dumps_val x ++ ", " ++ json_dumps_list (y :: rest)

/-- Serialized members of a JSON object, comma-space separated, with a
colon-space after each key. -/
def json_dumps_members : List (String × Json) → String
  | [] => ""
  | [kv] => "\"" ++ String.join (kv.1.data.map escapeChar) ++ "\": " ++ json_dumps_val kv.2
  | kv :: kv2 :: rest =>
      "\"" ++ String.join (kv.1.data.map escapeChar) ++ "\": " ++ json_dumps_val kv.2 ++
      ", " ++ json_dumps_members (kv2 :: rest)

end

/-- Test whether a character list starts with another. -/
def charsStartWith : List Char → List Char → Bool
  | _, [] => true
  | [], _ :: _ => false
  | c :: cs, d :: ds => c == d && charsStartWith cs ds

/-- Test whether a character list contains another as a contiguous run. -/
def charsContain : List Char → List Char → Bool
  | [], sub => sub.isEmpty
  | c :: cs, sub => charsStartWith (c :: cs) sub || charsContain cs sub

/-- Substring test on strings (Python `sub in s`). -/
def strContainsSub (s sub : String) : Bool := charsContain s.data sub.data

/-- Test whether `s` starts with `p`. -/
def strStartsWith (s p : String) : Bool := charsStartWith s.data p.data

/-- Test whether `s` ends with `p`. -/
def strEndsWith (s p : String) : Bool := charsStartWith s.data.reverse p.data.reverse

/-- File effects of one `save_refresh_token` call: the text of the
credentials file after the call and the content written to the cache file
(`none` when the cache write was skipped because an exception was raised
and caught earlier in the `try`-block). -/
structure SaveResult where
  credsFile : String
  cacheFile : Option String

/-- The function `save_refresh_token(token)` of `src/spotify.py`, as a
function of the current credentials-file text.  A `refresh_token` key in
the parsed dict is rewritten in place and the whole dict re-serialized
with `json.dump`; any exception is caught after skipping the rest of the
block, so a parse failure (or the `TypeError` from applying `in` or item
assignment to a non-dict) also skips the cache write. -/
def save_refresh_token (credsText token : String) : SaveResult :=
  match json_loads credsText with
  | none => ⟨credsText, none⟩
  | some (Json.obj kvs) =>
    if Json.hasKey kvs ("refresh_token") then
      ⟨json_dumps_val (Json.obj (Json.setKey kvs ("refresh_token") (Json.str token))),
       some token⟩
    else ⟨credsText, some token⟩
  | some (Json.arr xs) =>
    if xs.any (fun v => match v with | Json.str s => s == "refresh_token" | _ => false)
    then ⟨credsText, none⟩
    else ⟨credsText, some token⟩
  | some (Json.str s) =>
    if strContainsSub s ("refresh_token") then ⟨credsText, none⟩
    else ⟨credsText, some token⟩
  | some _ => ⟨credsText, none⟩

/-- A payload of the standard shape returned by the currently-playing
endpoint for an active track: string track, album and artist names, an
integer progress and duration, and an external URL present exactly when
nonempty. -/
def mkTrackPayload (track album url : String) (artists : List String) (p d : Int) : Json :=
  Json.obj [(("is_playing"), Json.bool true), (("progress_ms"), Json.int p),
    (("item"), Json.obj [(("duration_ms"), Json.int d), (("name"), Json.str track),
      (("album"), Json.obj [(("name"), Json.str album)]),
      (("artists"), Json.arr (artists.map fun a => Json.obj [(("name"), Json.str a)])),
      (("external_urls"), Json.obj (if url = "" then [] else [(("spotify"), Json.str url)]))])]

lemma except_bind_ok {α β : Type} (a : α) (f : α → Except String β) :
    Except.bind (Except.ok a) f = f a := rfl

lemma except_bind_ne_ok_none {α β : Type} (x : Except String α)
    (f : α → Except String (Option β)) (h : ∀ a, f a ≠ Except.ok none) :
    Except.bind x f ≠ Except.ok none := by
  cases x with
  | error e => simp [Except.bind]
  | ok a => simpa [Except.bind] using h a

lemma pyMapSubName_mk (as : List String) :
    pyMapSubName (as.map fun a => Json.obj [(("name"), Json.str a)]) =
      Except.ok (as.map Json.str) := by
  induction as with
  | nil => rfl
  | cons a rest ih => simp [pyMapSubName, Json.pySub, Json.lookupKey, ih, except_bind_ok]

lemma asPyStrList_map_str (as : List String) :
    asPyStrList (as.map Json.str) = Except.ok as := by
  induction as with
  | nil => rfl
  | cons a rest ih => simp [asPyStrList, ih, except_bind_ok]

lemma lookupKey_setKey_self (kvs : List (String × Json)) (key : String) (v : Json) :
    Json.lookupKey (Json.setKey kvs key v) key = some v := by
  induction kvs with
  | nil => simp [Json.setKey, Json.lookupKey]
  | cons kv rest ih =>
    obtain ⟨k, w⟩ := kv
    by_cases h : k = key
    · subst h; simp [Json.setKey, Json.lookupKey]
    · simp [Json.setKey, Json.lookupKey, h, ih]

lemma lookupKey_setKey_other (kvs : List (String × Json)) (key k' : String) (v : Json)
    (h : k' ≠ key) :
    Json.lookupKey (Json.setKey kvs key v) k' = Json.lookupKey kvs k' := by
  induction kvs with
  | nil =>
    simp [Json.setKey, Json.lookupKey]
    exact fun he => h he.symm
  | cons kv rest ih =>
    obtain ⟨k, w⟩ := kv
    by_cases hk : k = key
    · subst hk
      have hne : ¬(k == k') = true := by simpa using fun he => h he.symm
      simp [Json.setKey, Json.lookupKey, hne]
    · simp [Json.setKey, Json.lookupKey, hk, ih]

lemma setKey_keys (kvs : List (String × Json)) (key : String) (v : Json)
    (h : Json.hasKey kvs key = true) :
    (Json.setKey kvs key v).map Prod.fst = kvs.map Prod.fst := by
  induction kvs with
  | nil => simp [Json.hasKey, Json.lookupKey] at h
  | cons kv rest ih =>
    obtain ⟨k, w⟩ := kv
    by_cases hk : k = key
    · subst hk; simp [Json.setKey]
    · have h' : Json.hasKey rest key = true := by
        simpa [Json.hasKey, Json.lookupKey, hk] using h
      simp [Json.setKey, hk, ih h']

lemma fetch_refreshCalls (st : ClientState) (rc ac : Nat) (net : NetOutcome) :
    (fetchCurrentlyPlaying st rc ac net).refreshCalls = rc := by
  cases net with
  | exn => rfl
  | resp s b =>
    simp only [fetchCurrentlyPlaying]
    split_ifs <;> cases b <;> rfl

lemma get_valid_no_refresh (st : ClientState) (now : Int) (rn fn : NetOutcome) (t : Json)
    (ht : st.access_token = some t) (htr : t.truthy = true)
    (hv : now ≤ st.expires_at - 60) :
    get_current_track st now rn fn = fetchCurrentlyPlaying st 0 0 fn := by
  unfold get_current_track
  rw [ht]
  simp [htr, show ¬(now > st.expires_at - 60) from by omega]

lemma refresh_non200_ret (st : ClientState) (now : Int) (status : Nat)
    (kvs : List (String × Json)) (hs : status ≠ 200) :
    (refresh_access_token st now (NetOutcome.resp status (some (Json.obj kvs)))).ret =
      Except.ok false := by
  unfold refresh_access_token
  have h2 : (status == 200) = false := by simpa using hs
  simp only [h2, Bool.false_eq_true, if_false, Json.pyGet]
  split_ifs <;> rfl

lemma refresh_non200_st (st : ClientState) (now : Int) (status : Nat) (body : Option Json)
    (hs : status ≠ 200) :
    (refresh_access_token st now (NetOutcome.resp status body)).st = st := by
  unfold refresh_access_token
  have h2 : (status == 200) = false := by simpa using hs
  cases body with
  | none => simp [h2]
  | some data =>
    cases data <;>
        simp only [h2, Bool.false_eq_true, if_false, Json.pyGet] <;>
      first
        | rfl
        | (split_ifs <;> rfl)

lemma exchange_non200_st (st : ClientState) (code : String) (now : Int) (status : Nat)
    (body : Option Json) (hs : status ≠ 200) :
    (exchange_code_for_token st code now (NetOutcome.resp status body)).st = st := by
  unfold exchange_code_for_token
  have h2 : (status == 200) = false := by simpa using hs
  simp [h2]

/-- C1 (counterexample): at the exact safety-margin boundary the claim
fails.  With `expires_at = 60` and `now = 0` the token is not valid per
the claim's definition (`now < expires_at - 60` is false), so the claim
demands a refresh; but `get_current_track` compares strictly
(`time.time() > expires_at - 60`), skips the refresh and goes straight to
the fetch. -/
theorem c1_counterexample :
    ¬ ((0 : Int) < (60 : Int) - 60) ∧
    (get_current_track ⟨some (Json.str ("T")), 60, Json.str ("R")⟩ 0 NetOutcome.exn
        (NetOutcome.resp 204 none)).refreshCalls = 0 ∧
    (get_current_track ⟨some (Json.str ("T")), 60, Json.str ("R")⟩ 0 NetOutcome.exn
        (NetOutcome.resp 204 none)).ret =
      Except.ok (some (Json.obj [(("is_playing"), Json.bool false)])) := by
  refine ⟨by omega, rfl, rfl⟩

/-- C1 (amended): on a client holding a truthy access token,
`get_current_track` invokes `refresh_access_token` exactly once when
`now > expires_at - 60` (strictly), and not at all when
`now ≤ expires_at - 60` — i.e. the token counts as valid up to and
including the instant exactly 60 seconds before expiry. -/
theorem c1_theorem (st : ClientState) (now : Int) (rn fn : NetOutcome) (t : Json)
    (ht : st.access_token = some t) (htr : t.truthy = true) :
    (now > st.expires_at - 60 → (get_current_track st now rn fn).refreshCalls = 1) ∧
    (now ≤ st.expires_at - 60 → (get_current_track st now rn fn).refreshCalls = 0) := by
  constructor
  · intro h
    unfold get_current_track
    rw [ht]
    simp only [htr, Bool.not_true, Bool.false_or, decide_eq_true_eq]
    rw [if_pos h]
    cases hr : (refresh_access_token st now rn).ret with
    | error e => simp [hr]
    | ok b => cases b <;> simp [hr, fetch_refreshCalls]
  · intro h
    rw [get_valid_no_refresh st now rn fn t ht htr h]
    exact fetch_refreshCalls st 0 0 fn

/-- C1 (witness): with the token expiring at 1000 and the call at 941
(inside the 60-second margin, strictly past it) the refresh runs once. -/
theorem c1_witness :
    (get_current_track ⟨some (Json.str ("T")), 1000, Json.str ("R")⟩ 941 NetOutcome.exn
        (NetOutcome.resp 204 none)).refreshCalls = 1 := by
  have h := c1_theorem ⟨some (Json.str ("T")), 1000, Json.str ("R")⟩ 941 NetOutcome.exn
    (NetOutcome.resp 204 none) (Json.str ("T")) rfl rfl
  exact h.1 (by decide)

/-- C2: a non-200 refresh response whose JSON body carries
`error = "invalid_grant"` triggers exactly one `start_authentication`
call and returns false; any other value of the error field triggers none
and still returns false. -/
theorem c2_theorem (st : ClientState) (now : Int) (status : Nat)
    (kvs : List (String × Json)) (hs : status ≠ 200) :
    (refresh_access_token st now (NetOutcome.resp status (some (Json.obj kvs)))).ret =
      Except.ok false ∧
    (Json.lookupKey kvs ("error") = some (Json.str ("invalid_grant")) →
      (refresh_access_token st now
          (NetOutcome.resp status (some (Json.obj kvs)))).authCalls = 1) ∧
    (∀ e : Json, Json.lookupKey kvs ("error") = some e → e ≠ Json.str ("invalid_grant") →
      (refresh_access_token st now
          (NetOutcome.resp status (some (Json.obj kvs)))).authCalls = 0) := by
  have h2 : (status == 200) = false := by simpa using hs
  refine ⟨refresh_non200_ret st now status kvs hs, ?_, ?_⟩
  · intro he
    unfold refresh_access_token
    simp [h2, Json.pyGet, he]
  · intro e he hne
    unfold refresh_access_token
    simp only [h2, Bool.false_eq_true, if_false, Json.pyGet, he, Option.getD_some]
    cases e with
    | str s =>
      have hsne : (s == "invalid_grant") = false := by
        simp only [beq_eq_false_iff_ne, ne_eq]
        intro hcontr
        exact hne (by rw [hcontr])
      simp [hsne]
    | null => simp
    | bool b => simp
    | int n => simp
    | arr xs => simp
    | obj okvs => simp

/-- C2 (witness): a 400 response with `error = "invalid_grant"` yields
one authentication prompt and a false return. -/
theorem c2_witness :
    (refresh_access_token ⟨none, 0, Json.str ("R")⟩ 0
        (NetOutcome.resp 400 (some (Json.obj [(("error"), Json.str ("invalid_grant"))])))).ret =
      Except.ok false ∧
    (refresh_access_token ⟨none, 0, Json.str ("R")⟩ 0
        (NetOutcome.resp 400
          (some (Json.obj [(("error"), Json.str ("invalid_grant"))])))).authCalls = 1 := by
  have h := c2_theorem ⟨none, 0, Json.str ("R")⟩ 0 400
    [(("error"), Json.str ("invalid_grant"))] (by omega)
  exact ⟨h.1, h.2.1 rfl⟩

/-- C3 (counterexample): `save_refresh_token` does not leave the other
fields of the credentials file byte-for-byte unchanged: `json.dump`
re-serializes the whole file.  Writing back the very same token to a file
that contains `refresh_token` (so the claim would force the file to stay
identical) still changes its bytes — the field `"a":1` becomes
`"a": 1`. -/
theorem c3_counterexample :
    json_loads ("\x7b\"a\":1,\"refresh_token\":\"x\"\x7d") =
      some (Json.obj [(("a"), Json.int 1), (("refresh_token"), Json.str ("x"))]) ∧
    (save_refresh_token ("\x7b\"a\":1,\"refresh_token\":\"x\"\x7d") ("x")).credsFile ≠
      ("\x7b\"a\":1,\"refresh_token\":\"x\"\x7d") := by
  refine ⟨rfl, by decide⟩

/-- C3 (amended): for a credentials file parsing to a JSON object that
contains `refresh_token`, `save_refresh_token` rewrites the file as the
default `json.dump` serialization of the object with `refresh_token`
set to the token; every other field keeps its value and its position (and
the token is written to the cache file), though the byte-level formatting
of the file is not preserved. -/
theorem c3_theorem (credsText token : String) (kvs : List (String × Json))
    (hp : json_loads credsText = some (Json.obj kvs))
    (hk : Json.hasKey kvs ("refresh_token") = true) :
    (save_refresh_token credsText token).credsFile =
      json_dumps_val (Json.obj (Json.setKey kvs ("refresh_token") (Json.str token))) ∧
    (save_refresh_token credsText token).cacheFile = some token ∧
    Json.lookupKey (Json.setKey kvs ("refresh_token") (Json.str token)) ("refresh_token") =
      some (Json.str token) ∧
    (∀ k : String, k ≠ ("refresh_token") →
      Json.lookupKey (Json.setKey kvs ("refresh_token") (Json.str token)) k =
        Json.lookupKey kvs k) ∧
    (Json.setKey kvs ("refresh_token") (Json.str token)).map Prod.fst =
      kvs.map Prod.fst := by
  have hsv : save_refresh_token credsText token =
      ⟨json_dumps_val (Json.obj (Json.setKey kvs ("refresh_token") (Json.str token))),
       some token⟩ := by
    unfold save_refresh_token
    rw [hp]
    simp [hk]
  exact ⟨by rw [hsv], by rw [hsv], lookupKey_setKey_self kvs _ _,
    fun k hkne => lookupKey_setKey_other kvs _ k _ hkne, setKey_keys kvs _ _ hk⟩

/-- C3 (witness): saving a new token into a file that has
`refresh_token` rewrites that field and preserves the value of the other
field `b`. -/
theorem c3_witness :
    (save_refresh_token ("\x7b\"refresh_token\":\"old\",\"b\":2\x7d") ("new")).cacheFile =
      some ("new") ∧
    Json.lookupKey (Json.setKey [(("refresh_token"), Json.str ("old")), (("b"), Json.int 2)]
        ("refresh_token") (Json.str ("new"))) ("b") =
      Json.lookupKey [(("refresh_token"), Json.str ("old")), (("b"), Json.int 2)] ("b") := by
  have h := c3_theorem ("\x7b\"refresh_token\":\"old\",\"b\":2\x7d") ("new")
    [(("refresh_token"), Json.str ("old")), (("b"), Json.int 2)] rfl rfl
  exact ⟨h.2.1, h.2.2.2.1 ("b") (by decide)⟩

/-- C4: for a credentials file parsing to a JSON object without a
`refresh_token` key, `save_refresh_token` leaves the file untouched (in
particular it adds no key) and writes the token to the cache file. -/
theorem c4_theorem (credsText token : String) (kvs : List (String × Json))
    (hp : json_loads credsText = some (Json.obj kvs))
    (hk : Json.hasKey kvs ("refresh_token") = false) :
    save_refresh_token credsText token = ⟨credsText, some token⟩ := by
  unfold save_refresh_token
  rw [hp]
  simp [hk]

/-- C4 (witness): a credentials file holding only `client_id` is left
unchanged while the token goes to the cache file. -/
theorem c4_witness :
    save_refresh_token ("\x7b\"client_id\": \"i\"\x7d") ("tok") =
      ⟨("\x7b\"client_id\": \"i\"\x7d"), some ("tok")⟩ :=
  c4_theorem ("\x7b\"client_id\": \"i\"\x7d") ("tok") [(("client_id"), Json.str ("i"))] rfl rfl

/-- C5 (counterexample): not every failure surfaces as a benign return.
A network-level error during the refresh POST raises out of
`refresh_access_token` (there is no try/except around it), a non-JSON
body on a non-200 refresh response raises from `response.json()`, and
when `get_current_track` takes the refresh path the same exception
escapes `get_current_track` as well. -/
theorem c5_counterexample :
    (refresh_access_token ⟨none, 0, Json.str ("R")⟩ 0 NetOutcome.exn).ret =
      Except.error ("RequestException") ∧
    (refresh_access_token ⟨none, 0, Json.str ("R")⟩ 0 (NetOutcome.resp 500 none)).ret =
      Except.error ("JSONDecodeError") ∧
    (get_current_track ⟨none, 0, Json.str ("R")⟩ 0 NetOutcome.exn
        (NetOutcome.resp 204 none)).ret = Except.error ("RequestException") :=
  ⟨rfl, rfl, rfl⟩

/-- C5 (amended): failures of the fetch stage of `get_current_track`
(network error, non-2xx/204 status, non-JSON 200 body) all return `None`
without raising, and `refresh_access_token` returns false on any non-200
response whose body is a JSON object; but a network-level error during
the refresh POST raises out of `refresh_access_token` instead of
returning false. -/
theorem c5_theorem (st : ClientState) (now : Int) (rn : NetOutcome) (t : Json)
    (status : Nat) (body : Option Json) (kvs : List (String × Json))
    (ht : st.access_token = some t) (htr : t.truthy = true)
    (hv : now ≤ st.expires_at - 60) (hs : status ≠ 200) :
    (get_current_track st now rn NetOutcome.exn).ret = Except.ok none ∧
    (status ≠ 204 → (get_current_track st now rn (NetOutcome.resp status body)).ret =
      Except.ok none) ∧
    (get_current_track st now rn (NetOutcome.resp 200 none)).ret = Except.ok none ∧
    (refresh_access_token st now (NetOutcome.resp status (some (Json.obj kvs)))).ret =
      Except.ok false ∧
    (refresh_access_token st now NetOutcome.exn).ret =
      Except.error ("RequestException") := by
  refine ⟨?_, ?_, ?_, refresh_non200_ret st now status kvs hs, rfl⟩
  · rw [get_valid_no_refresh st now rn NetOutcome.exn t ht htr hv]; rfl
  · intro h4
    rw [get_valid_no_refresh st now rn (NetOutcome.resp status body) t ht htr hv]
    have hs2 : (status == 200) = false := by simpa using hs
    have hs4 : (status == 204) = false := by simpa using h4
    cases body <;> simp [fetchCurrentlyPlaying, hs2, hs4]
  · rw [get_valid_no_refresh st now rn (NetOutcome.resp 200 none) t ht htr hv]; rfl

/-- C5 (witness): with a valid token, a network error and a 500 response
on the fetch both yield `None`, and a 500 refresh response with an empty
JSON object body yields a false return. -/
theorem c5_witness :
    (get_current_track ⟨some (Json.str ("T")), 1000, Json.str ("R")⟩ 900 NetOutcome.exn
        NetOutcome.exn).ret = Except.ok none ∧
    (get_current_track ⟨some (Json.str ("T")), 1000, Json.str ("R")⟩ 900 NetOutcome.exn
        (NetOutcome.resp 500 none)).ret = Except.ok none ∧
    (refresh_access_token ⟨some (Json.str ("T")), 1000, Json.str ("R")⟩ 900
        (NetOutcome.resp 500 (some (Json.obj [])))).ret = Except.ok false := by
  have h := c5_theorem ⟨some (Json.str ("T")), 1000, Json.str ("R")⟩ 900 NetOutcome.exn
    (Json.str ("T")) 500 none [] rfl rfl (by decide) (by decide)
  exact ⟨h.1, h.2.1 (by decide), h.2.2.2.1⟩

/-- C6: with a valid token, a 204 from the resource endpoint makes
`get_current_track` return exactly the synthetic payload
`{is_playing: false}`, and the formatter maps that payload to `None` —
so a 204 is treated identically to a `{is_playing: false}` payload. -/
theorem c6_theorem (st : ClientState) (now : Int) (rn : NetOutcome) (body : Option Json)
    (t : Json) (ht : st.access_token = some t) (htr : t.truthy = true)
    (hv : now ≤ st.expires_at - 60) :
    (get_current_track st now rn (NetOutcome.resp 204 body)).ret =
      Except.ok (some (Json.obj [(("is_playing"), Json.bool false)])) ∧
    format_track_info (some (Json.obj [(("is_playing"), Json.bool false)])) =
      Except.ok none := by
  refine ⟨?_, rfl⟩
  rw [get_valid_no_refresh st now rn (NetOutcome.resp 204 body) t ht htr hv]
  rfl

/-- C6 (witness): concrete 204 fetch with a valid token. -/
theorem c6_witness :
    (get_current_track ⟨some (Json.str ("S")), 500, Json.str ("R")⟩ 400 NetOutcome.exn
        (NetOutcome.resp 204 none)).ret =
      Except.ok (some (Json.obj [(("is_playing"), Json.bool false)])) :=
  (c6_theorem ⟨some (Json.str ("S")), 500, Json.str ("R")⟩ 400 NetOutcome.exn none
    (Json.str ("S")) rfl rfl (by decide)).1

/-- C7: the reference payload formats to the documented line, which
contains the four required fragments, and for every millisecond count the
rendered time is minutes `(ms div 1000) div 60`, a colon, and seconds
`(ms div 1000) mod 60` zero-padded to two digits. -/
theorem c7_theorem :
    format_track_info (some (Json.obj [(("is_playing"), Json.bool true),
        (("progress_ms"), Json.int 65000),
        (("item"), Json.obj [(("duration_ms"), Json.int 185000), (("name"), Json.str ("X")),
          (("album"), Json.obj [(("name"), Json.str ("A"))]),
          (("artists"), Json.arr [Json.obj [(("name"), Json.str ("B"))],
            Json.obj [(("name"), Json.str ("C"))]]),
          (("external_urls"), Json.obj [(("spotify"), Json.str ("u"))])])])) =
      Except.ok (some
        ("ðŸŽµ Now playing: B, C - X | (from A) | Progress: 1:05/3:05 | Listen: u")) ∧
    strContainsSub
      ("ðŸŽµ Now playing: B, C - X | (from A) | Progress: 1:05/3:05 | Listen: u")
      ("B, C - X") = true ∧
    strContainsSub
      ("ðŸŽµ Now playing: B, C - X | (from A) | Progress: 1:05/3:05 | Listen: u")
      ("(from A)") = true ∧
    strContainsSub
      ("ðŸŽµ Now playing: B, C - X | (from A) | Progress: 1:05/3:05 | Listen: u")
      ("Progress: 1:05/3:05") = true ∧
    strContainsSub
      ("ðŸŽµ Now playing: B, C - X | (from A) | Progress: 1:05/3:05 | Listen: u")
      ("Listen: u") = true ∧
    ∀ ms : Nat, ms_to_minutes_seconds (ms : Int) =
      toString (ms / 1000 / 60) ++ ":" ++ pad2 ((ms / 1000 % 60 : Nat) : Int) := by
  refine ⟨rfl, by decide, by decide, by decide, by decide, ?_⟩
  intro ms
  simp only [ms_to_minutes_seconds]
  rw [Int.fdiv_eq_ediv _ (show (0 : Int) ≤ 1000 by norm_num),
      Int.fdiv_eq_ediv _ (show (0 : Int) ≤ 60 by norm_num),
      Int.fmod_eq_emod _ (show (0 : Int) ≤ 60 by norm_num)]
  rw [show ((1000 : Int)) = ((1000 : Nat) : Int) from rfl,
      show ((60 : Int)) = ((60 : Nat) : Int) from rfl]
  rw [← Int.ofNat_ediv, ← Int.ofNat_ediv, ← Int.ofNat_emod]
  rfl

/-- C8 (counterexample): the produced line is not exactly the template
`"Now playing: ..."` — it carries the literal four-character music-note
prefix of the source — and with the external URL missing only the
`Listen:` text disappears: the trailing `" | "` separator stays. -/
theorem c8_counterexample :
    format_track_info (some (Json.obj [(("is_playing"), Json.bool true),
        (("item"), Json.obj [(("name"), Json.str ("X")),
          (("album"), Json.obj [(("name"), Json.str ("A"))]),
          (("artists"), Json.arr [Json.obj [(("name"), Json.str ("B"))]])])])) =
      Except.ok (some ("ðŸŽµ Now playing: B - X | (from A) | Progress: 0:00/0:00 | ")) ∧
    strStartsWith ("ðŸŽµ Now playing: B - X | (from A) | Progress: 0:00/0:00 | ")
      ("Now playing:") = false ∧
    strEndsWith ("ðŸŽµ Now playing: B - X | (from A) | Progress: 0:00/0:00 | ")
      (" | ") = true := by
  refine ⟨rfl, by decide, by decide⟩

/-- C8 (amended): every playing payload of the standard shape produces
the one fixed-template line
`"ðŸŽµ Now playing: {artists} - {track} | (from {album}) | Progress: {pos}/{dur} | {listen}"`,
where the listen segment is `"Listen: {url}"` when the external URL is
present and empty when it is missing — the preceding `" | "` separator is
emitted either way. -/
theorem c8_theorem (track album url : String) (artists : List String) (p d : Int) :
    format_track_info (some (mkTrackPayload track album url artists p d)) =
      Except.ok (some (("ðŸŽµ Now playing: ") ++ String.intercalate (", ") artists ++
        (" - ") ++ track ++ (" | (from ") ++ album ++ (") | Progress: ") ++
        ms_to_minutes_seconds p ++ ("/") ++ ms_to_minutes_seconds d ++ (" | ") ++
        (if url = "" then "" else ("Listen: ") ++ url))) := by
  by_cases hu : url = ""
  · subst hu
    simp [format_track_info, mkTrackPayload, Json.pyGet, Json.lookupKey, Json.truthy,
      Json.pyIter, pyMapSubName_mk, asPyStrList_map_str, Json.pyInt, Json.pyStr,
      except_bind_ok]
  · simp [format_track_info, mkTrackPayload, Json.pyGet, Json.lookupKey, Json.truthy,
      Json.pyIter, pyMapSubName_mk, asPyStrList_map_str, Json.pyInt, Json.pyStr,
      except_bind_ok, hu]

/-- C8 (witness): the template theorem instantiated at a concrete payload
with no external URL. -/
theorem c8_witness :
    format_track_info (some (mkTrackPayload ("X2") ("A2") ("") ["B2"] 0 0)) =
      Except.ok (some (("ðŸŽµ Now playing: ") ++ String.intercalate (", ") ["B2"] ++
        (" - ") ++ ("X2") ++ (" | (from ") ++ ("A2") ++ (") | Progress: ") ++
        ms_to_minutes_seconds 0 ++ ("/") ++ ms_to_minutes_seconds 0 ++ (" | ") ++
        (if ("" : String) = "" then "" else ("Listen: ") ++ ("")))) :=
  c8_theorem ("X2") ("A2") ("") ["B2"] 0 0

/-- C9 (counterexample): the token state is not updated atomically.  A
200 refresh response whose JSON lacks `expires_in` raises `KeyError`
after `access_token` has already been assigned: the call fails, yet
`access_token` changed while `expires_at` kept its old value. -/
theorem c9_counterexample :
    (refresh_access_token ⟨none, 0, Json.str ("R")⟩ 5
        (NetOutcome.resp 200 (some (Json.obj [(("access_token"), Json.str ("A"))])))).ret =
      Except.error ("KeyError") ∧
    (refresh_access_token ⟨none, 0, Json.str ("R")⟩ 5
        (NetOutcome.resp 200
          (some (Json.obj [(("access_token"), Json.str ("A"))])))).st.access_token =
      some (Json.str ("A")) ∧
    (refresh_access_token ⟨none, 0, Json.str ("R")⟩ 5
        (NetOutcome.resp 200
          (some (Json.obj [(("access_token"), Json.str ("A"))])))).st.expires_at = 0 :=
  ⟨rfl, rfl, rfl⟩

/-- C9 (amended): any non-200 (or network-failed) exchange or refresh
leaves the token state untouched, and a 200 response whose JSON carries
the required fields overwrites the state wholesale with
`expires_at = now + expires_in`; but a 200 response missing a required
field raises mid-assignment and can leave the state partially updated. -/
theorem c9_theorem (st : ClientState) (now : Int) (status : Nat) (body : Option Json)
    (code : String) (kvs : List (String × Json)) (a r : Json) (n : Int)
    (hs : status ≠ 200) :
    (refresh_access_token st now (NetOutcome.resp status body)).st = st ∧
    (exchange_code_for_token st code now (NetOutcome.resp status body)).st = st ∧
    (refresh_access_token st now NetOutcome.exn).st = st ∧
    (exchange_code_for_token st code now NetOutcome.exn).st = st ∧
    (Json.lookupKey kvs ("access_token") = some a →
      Json.lookupKey kvs ("expires_in") = some (Json.int n) →
      (refresh_access_token st now (NetOutcome.resp 200 (some (Json.obj kvs)))).ret =
        Except.ok true ∧
      (refresh_access_token st now
          (NetOutcome.resp 200 (some (Json.obj kvs)))).st.access_token = some a ∧
      (refresh_access_token st now
          (NetOutcome.resp 200 (some (Json.obj kvs)))).st.expires_at = now + n) ∧
    (Json.lookupKey kvs ("access_token") = some a →
      Json.lookupKey kvs ("refresh_token") = some r →
      Json.lookupKey kvs ("expires_in") = some (Json.int n) →
      exchange_code_for_token st code now (NetOutcome.resp 200 (some (Json.obj kvs))) =
        ⟨Except.ok true, ⟨some a, now + n, r⟩, 0, [r]⟩) := by
  refine ⟨refresh_non200_st st now status body hs,
    exchange_non200_st st code now status body hs, rfl, rfl, ?_, ?_⟩
  · intro ha he
    unfold refresh_access_token
    simp only [Json.pySub, ha, he, Json.pyInt, Json.pyHasKey]
    by_cases hr : Json.hasKey kvs ("refresh_token") = true
    · obtain ⟨rt, hrt⟩ : ∃ rt, Json.lookupKey kvs ("refresh_token") = some rt := by
        cases hlk : Json.lookupKey kvs ("refresh_token") with
        | none => rw [Json.hasKey, hlk] at hr; simp at hr
        | some v => exact ⟨v, rfl⟩
      simp [hr, hrt]
    · have hr' : Json.hasKey kvs ("refresh_token") = false := by simpa using hr
      simp [hr']
  · intro ha hr he
    unfold exchange_code_for_token
    simp [Json.pySub, ha, hr, he, Json.pyInt]

/-- C9 (witness): a 401 refresh leaves the state unchanged; a complete
200 refresh succeeds with `expires_at = now + expires_in`; a complete 200
exchange overwrites the whole state. -/
theorem c9_witness :
    (refresh_access_token ⟨none, 0, Json.str ("R")⟩ 7 (NetOutcome.resp 401 none)).st =
      (⟨none, 0, Json.str ("R")⟩ : ClientState) ∧
    (refresh_access_token ⟨none, 0, Json.str ("R")⟩ 7
        (NetOutcome.resp 200 (some (Json.obj [(("access_token"), Json.str ("A2")),
          (("refresh_token"), Json.str ("R2")),
          (("expires_in"), Json.int 100)])))).ret = Except.ok true ∧
    (refresh_access_token ⟨none, 0, Json.str ("R")⟩ 7
        (NetOutcome.resp 200 (some (Json.obj [(("access_token"), Json.str ("A2")),
          (("refresh_token"), Json.str ("R2")),
          (("expires_in"), Json.int 100)])))).st.expires_at = 7 + 100 ∧
    exchange_code_for_token ⟨none, 0, Json.str ("R")⟩ ("c") 7
        (NetOutcome.resp 200 (some (Json.obj [(("access_token"), Json.str ("A2")),
          (("refresh_token"), Json.str ("R2")), (("expires_in"), Json.int 100)]))) =
      ⟨Except.ok true, ⟨some (Json.str ("A2")), 7 + 100, Json.str ("R2")⟩, 0,
        [Json.str ("R2")]⟩ := by
  have h := c9_theorem ⟨none, 0, Json.str ("R")⟩ 7 401 none ("c")
    [(("access_token"), Json.str ("A2")), (("refresh_token"), Json.str ("R2")),
     (("expires_in"), Json.int 100)] (Json.str ("A2")) (Json.str ("R2")) 100 (by omega)
  exact ⟨h.1, (h.2.2.2.2.1 rfl rfl).1, (h.2.2.2.2.1 rfl rfl).2.2,
    h.2.2.2.2.2 rfl rfl rfl⟩

/-- C10 (counterexample): the empty dict is a non-absent payload lacking
`is_playing`, yet the formatter returns `None` for it: Python's
truthiness test `not track_data` rejects an empty dict before the
`is_playing` default is ever consulted. -/
theorem c10_counterexample :
    format_track_info (some (Json.obj [])) = Except.ok none ∧
    Json.lookupKey ([] : List (String × Json)) ("is_playing") = none :=
  ⟨rfl, rfl⟩

/-- C10 (amended): every non-empty object payload lacking `is_playing`
is treated as playing: the formatter never returns `None` on it (it
either renders a line or raises on malformed inner fields). -/
theorem c10_theorem (kvs : List (String × Json)) (hne : kvs ≠ [])
    (hmiss : Json.lookupKey kvs ("is_playing") = none) :
    format_track_info (some (Json.obj kvs)) ≠ Except.ok none := by
  have hie : kvs.isEmpty = false := by
    cases kvs with
    | nil => exact absurd rfl hne
    | cons a l => rfl
  unfold format_track_info
  simp only [Json.truthy, hie, Bool.not_false, Bool.not_true, Bool.false_eq_true,
    if_false, Json.pyGet, hmiss, Option.getD_none, except_bind_ok]
  repeat (apply except_bind_ne_ok_none; intro _a)
  simp

/-- C10 (witness): a one-field payload without `is_playing` does not map
to `None`. -/
theorem c10_witness :
    format_track_info (some (Json.obj [(("foo"), Json.null)])) ≠ Except.ok none :=
  c10_theorem [(("foo"), Json.null)] (fun h => List.noConfusion h) rfl
